import Mathlib

set_option maxRecDepth 10000

/-!
Shallow embedding of the rvsim RISC-V pipeline simulator.

Source files embedded here:
  src/src/instruction.rs  (decoder, control signals)
  src/src/cpu.rs          (five-stage in-order core, integer ALU)
  src/src/cpu/mod.rs      (out-of-order Tomasulo core)
  src/src/cpu/station.rs  (reservation stations, execution units)
  src/src/cpu/cdb.rs      (common data bus)

Conventions of the embedding:
  * Machine integers (u32, u8) are represented as `Nat`.  Wrapping arithmetic
    carries an explicit `% 2 ^ 32`.  Rust `x >> k` is `x / 2 ^ k`, `x << k`
    (within range) is `x * 2 ^ k`, and `x & m` for a mask `m` covering bits
    lo..hi is `x / 2 ^ lo % 2 ^ (hi - lo + 1) * 2 ^ lo`; each translated
    expression carries the original Rust text in a comment.  A bitwise `|` of
    operands with provably disjoint bit ranges is rendered as `+` (noted where
    it happens); `|`, `&` on packed tag bytes where operands may overlap keep
    `Nat.lor` / `Nat.land`.
  * Rust panics (unwrap on a decode failure, failed assert, shift-overflow,
    unreachable/todo arms, CDB overflow) are modelled as `Option.none` or as a
    distinguished `crash` outcome of the step function.  Recoverable
    `Result::Err` values keep their message strings.
  * Fixed-size arrays become `List`s of the corresponding length; the register
    file and the flat memory become total functions `Nat → Nat` (out-of-range
    indexing, which would panic in Rust, is never exercised by any theorem
    below).
  * IEEE-754 single-precision arithmetic (`fadd`/`fmul` in station.rs) is
    outside the scope of the shallow embedding; the two combinational functions
    are modelled as opaque constant functions.  No claim below depends on the
    numeric value they produce, only on when that value is broadcast.
-/

/-- Encoding class of an instruction word (instruction.rs `InstType`). -/
inductive InstType
  | R
  | I
  | S
  | B
  | U
  | J
  deriving DecidableEq, Repr

/-- ALU operation tags with their numeric discriminants
    (instruction.rs `AluType`: Add=0, Sll=1, Slt=2, Sltu=3, Xor=4, Srl=5,
    Or=6, And=7, Mul=8, Mulh=9, Mulhu=11, Sub=12, Sra=13, Bsel=15). -/
inductive AluType
  | Add
  | Sll
  | Slt
  | Sltu
  | Xor
  | Srl
  | Or
  | And
  | Mul
  | Mulh
  | Mulhu
  | Sub
  | Sra
  | Bsel
  deriving DecidableEq, Repr

/-- Numeric discriminant of an `AluType` (Rust `as u8`). -/
def AluType.toCode : AluType → Nat
  | .Add => 0
  | .Sll => 1
  | .Slt => 2
  | .Sltu => 3
  | .Xor => 4
  | .Srl => 5
  | .Or => 6
  | .And => 7
  | .Mul => 8
  | .Mulh => 9
  | .Mulhu => 11
  | .Sub => 12
  | .Sra => 13
  | .Bsel => 15

/-- instruction.rs `impl From<u32> for AluType`.  The Rust code panics on an
    unlisted value; that is modelled as `none`. -/
def AluType.from_u32 (value : Nat) : Option AluType :=
  match value with
  | 0 => some .Add
  | 1 => some .Sll
  | 2 => some .Slt
  | 3 => some .Sltu
  | 4 => some .Xor
  | 5 => some .Srl
  | 6 => some .Or
  | 7 => some .And
  | 8 => some .Mul
  | 9 => some .Mulh
  | 11 => some .Mulhu
  | 12 => some .Sub
  | 13 => some .Sra
  | 15 => some .Bsel
  | _ => none

/-- Writeback source selector (instruction.rs `WBType`). -/
inductive WBType
  | Mem
  | Alu
  | Pc
  | None
  deriving DecidableEq, Repr

/-- Memory operation tag (instruction.rs `MemType`). -/
inductive MemType
  | Load
  | Store
  | None
  deriving DecidableEq, Repr

/-- Reservation-station class (instruction.rs `StationType`). -/
inductive StationType
  | None
  | LoadStore
  | Integer
  | FAdd
  | FMul
  deriving DecidableEq, Repr

/-- instruction.rs `sign_extend`:
      let shift = 32 - bits;
      let sign = (value >> (bits - 1)) & 1;
      let mask = ((1 << shift) - 1) << bits;
      let sign_mask = sign * mask;
      (value << shift) >> shift | sign_mask
    The final `|` combines a value below `2 ^ bits` with a mask whose set bits
    all lie at or above position `bits`, so it is rendered as `+`.
    `value << shift` is a u32 shift, hence the `% 2 ^ 32`. -/
def sign_extend (value bits : Nat) : Nat :=
  let shift := 32 - bits
  let sign := value / 2 ^ (bits - 1) % 2
  let mask := (2 ^ shift - 1) * 2 ^ bits
  value * 2 ^ shift % 2 ^ 32 / 2 ^ shift + sign * mask

/-- Decoded instruction (instruction.rs `Instruction`). -/
structure Instruction where
  binary : Nat
  inst_type : InstType
  rs1 : Nat
  rs2 : Nat
  rd : Nat
  imm : Nat
  deriving DecidableEq, Repr

namespace Instruction

/-- instruction.rs `Instruction::from_binary`.  A word whose opcode is not in
    the documented set yields `none` (the Rust `Err`).  Bit-field extractions
    are translated as explained in the file header:
      rs1 = (binary >> 15) & 0x1f, rs2 = (binary >> 20) & 0x1f,
      rd = (binary >> 7) & 0x1f. -/
def from_binary (binary : Nat) : Option Instruction :=
  let opcode := binary % 2 ^ 7      -- binary & 0x7f
  let inst_type? : Option InstType :=
    if opcode = 0x33 ∨ opcode = 0x53 then some .R
    else if opcode = 0x03 ∨ opcode = 0x07 ∨ opcode = 0x13 ∨ opcode = 0x67 ∨ opcode = 0x73 then
      some .I
    else if opcode = 0x23 ∨ opcode = 0x27 then some .S
    else if opcode = 0x63 then some .B
    else if opcode = 0x37 ∨ opcode = 0x17 then some .U
    else if opcode = 0x6f then some .J
    else none
  match inst_type? with
  | none => none
  | some inst_type =>
    let rs1 := binary / 2 ^ 15 % 2 ^ 5
    let rs2 := binary / 2 ^ 20 % 2 ^ 5
    let rd := binary / 2 ^ 7 % 2 ^ 5
    let imm :=
      match inst_type with
      -- I: sign_extend(binary >> 20, 12)
      | .I => sign_extend (binary / 2 ^ 20) 12
      -- S: sign_extend(((binary >> 7) & 0x1f) | ((binary >> 20) & 0xfe0), 12)
      --    (binary >> 20) & 0xfe0 = ((binary >> 25) & 0x7f) << 5
      | .S => sign_extend (binary / 2 ^ 7 % 2 ^ 5 + binary / 2 ^ 25 % 2 ^ 7 * 2 ^ 5) 12
      -- B: sign_extend((((binary >> 8) & 0xf) << 1) | ((binary >> 20) & 0x7e0)
      --      | ((binary << 4) & 0x800) | ((binary >> 19) & 0x1000), 13)
      --    (binary >> 20) & 0x7e0 = ((binary >> 25) & 0x3f) << 5
      --    (binary << 4) & 0x800 = ((binary >> 7) & 1) << 11
      --    (binary >> 19) & 0x1000 = ((binary >> 31) & 1) << 12
      | .B => sign_extend (binary / 2 ^ 8 % 2 ^ 4 * 2 + binary / 2 ^ 25 % 2 ^ 6 * 2 ^ 5
                + binary / 2 ^ 7 % 2 * 2 ^ 11 + binary / 2 ^ 31 % 2 * 2 ^ 12) 13
      -- U: binary & 0xfffff000
      | .U => binary / 2 ^ 12 % 2 ^ 20 * 2 ^ 12
      -- J: sign_extend((((binary >> 21) & 0x3ff) << 1) | ((binary >> 9) & 0x800)
      --      | (binary & 0xff000) | ((binary >> 11) & 0x100000), 21)
      --    (binary >> 9) & 0x800 = ((binary >> 20) & 1) << 11
      --    binary & 0xff000 = ((binary >> 12) & 0xff) << 12
      --    (binary >> 11) & 0x100000 = ((binary >> 31) & 1) << 20
      | .J => sign_extend (binary / 2 ^ 21 % 2 ^ 10 * 2 + binary / 2 ^ 20 % 2 * 2 ^ 11
                + binary / 2 ^ 12 % 2 ^ 8 * 2 ^ 12 + binary / 2 ^ 31 % 2 * 2 ^ 20) 21
      | _ => 0
    some ⟨binary, inst_type, rs1, rs2, rd, imm⟩

/-- instruction.rs `Instruction::nop`, i.e. `from_binary(0x33).unwrap()`
    (add x0, x0, x0), written out as the record it decodes to. -/
def nop : Instruction := ⟨0x33, .R, 0, 0, 0, 0⟩

/-- instruction.rs `Instruction::is_jump`. -/
def is_jump (i : Instruction) : Bool :=
  match i.inst_type with
  | .B => true
  | .J => true
  | .I => i.binary % 2 ^ 7 == 0x67    -- (binary & 0x7f) == 0x67
  | _ => false

/-- instruction.rs `Instruction::alu_use_reg1`. -/
def alu_use_reg1 (i : Instruction) : Bool :=
  match i.inst_type with
  | .R => true
  | .I => true
  | .S => true
  | _ => false

/-- instruction.rs `Instruction::alu_use_reg2`. -/
def alu_use_reg2 (i : Instruction) : Bool :=
  match i.inst_type with
  | .R => true
  | _ => false

/-- instruction.rs `Instruction::alu_op`.  The Rust code builds a numeric code
    with `|=` (possibly overlapping bits, kept as `Nat.lor`) and converts it
    through `From<u32> for AluType`, which panics (here: `none`) on an
    unlisted code. -/
def alu_op (i : Instruction) : Option AluType :=
  match i.inst_type with
  | .R =>
    -- code = (binary >> 12) & 0x7; code |= ((binary >> 30) & 1) * 0b1100;
    -- code |= ((binary >> 25) & 1) * 0b1000
    AluType.from_u32
      ((i.binary / 2 ^ 12 % 2 ^ 3 ||| i.binary / 2 ^ 30 % 2 * 0b1100)
        ||| i.binary / 2 ^ 25 % 2 * 0b1000)
  | .I =>
    if i.binary % 2 ^ 7 = 0x3 then some .Add
    else
      -- code = (binary >> 12) & 0x7; if code == 0b101, code |= ((binary >> 30) & 1) << 3
      let code := i.binary / 2 ^ 12 % 2 ^ 3
      AluType.from_u32 (if code = 0b101 then code ||| i.binary / 2 ^ 30 % 2 * 2 ^ 3 else code)
  | .U =>
    -- (((binary >> 5) & 0x1) * 0xf).into()
    AluType.from_u32 (i.binary / 2 ^ 5 % 2 * 0xf)
  | _ => some .Add    -- 0.into()

/-- instruction.rs `Instruction::write_back`. -/
def write_back (i : Instruction) : WBType :=
  match i.inst_type with
  | .I =>
    if i.binary % 2 ^ 7 = 0x3 then .Mem
    else if i.binary % 2 ^ 7 = 0x67 then .Pc
    else .Alu
  | .R => .Alu
  | .U => .Alu
  | .J => .Pc
  | _ => .None

/-- Signed (two's-complement) reading of a u32 value, i.e. Rust `as i32`. -/
def toInt32 (a : Nat) : Int :=
  if a < 2 ^ 31 then (a : Int) else (a : Int) - 2 ^ 32

/-- instruction.rs `Instruction::branch`. -/
def branch (i : Instruction) (a b : Nat) : Bool :=
  match i.inst_type with
  | .B =>
    match i.binary / 2 ^ 12 % 2 ^ 3 with    -- (binary >> 12) & 0x7
    | 0 => a == b
    | 1 => a != b
    | 4 => decide (toInt32 a < toInt32 b)   -- (a as i32) < (b as i32)
    | 5 => decide (toInt32 b ≤ toInt32 a)   -- (a as i32) >= (b as i32)
    | 6 => decide (a < b)
    | 7 => decide (b ≤ a)
    | _ => false
  | .J => true
  | .I => i.binary % 2 ^ 7 == 0x67
  | _ => false

/-- instruction.rs `Instruction::mem_op`. -/
def mem_op (i : Instruction) : MemType :=
  match i.inst_type with
  | .I => if i.binary % 2 ^ 7 = 0x3 then .Load else .None
  | .S => .Store
  | _ => .None

/-- instruction.rs `Instruction::reg_write`. -/
def reg_write (i : Instruction) : Bool :=
  (match i.inst_type with
   | .R => true
   | .I => true
   | .U => true
   | .J => true
   | _ => false) && i.rd != 0

/-- instruction.rs `Instruction::is_load`. -/
def is_load (i : Instruction) : Bool := i.binary % 2 ^ 7 == 0x03

/-- instruction.rs `Instruction::is_nop`. -/
def is_nop (i : Instruction) : Bool := i.binary == 0x33

/-- instruction.rs `Instruction::is_ebreak`. -/
def is_ebreak (i : Instruction) : Bool := i.binary == 0x100073

/-- instruction.rs `Instruction::is_ecall`. -/
def is_ecall (i : Instruction) : Bool := i.binary == 0x73

/-- instruction.rs `Instruction::is_float_point`. -/
def is_float_point (i : Instruction) : Bool :=
  i.binary % 2 ^ 7 == 0x07 || i.binary % 2 ^ 7 == 0x27 || i.binary % 2 ^ 7 == 0x53

/-- instruction.rs `Instruction::station`.  The panic arm for an unknown float
    instruction is modelled as `none`. -/
def station (i : Instruction) : Option StationType :=
  match i.inst_type with
  | .I =>
    if i.binary % 2 ^ 7 = 0x03 ∨ i.binary % 2 ^ 7 = 0x07 then some .LoadStore
    else some .Integer
  | .S => some .LoadStore
  | .R =>
    if i.binary % 2 ^ 7 = 0x53 then
      if i.binary / 2 ^ 12 % 2 ^ 3 = 0 ∨ i.binary / 2 ^ 12 % 2 ^ 3 = 4 then some .FAdd
      else if i.binary / 2 ^ 12 % 2 ^ 3 = 8 ∨ i.binary / 2 ^ 12 % 2 ^ 3 = 0xc then some .FMul
      else none
    else some .Integer
  | .U => some .Integer
  | .J => some .Integer
  | _ => some .None

end Instruction

/-- The ALU, identical in cpu.rs and cpu/station.rs (`fn alu`).  Shift
    operations `a << b`, `a >> b`, `(a as i32) >> b` overflow (a Rust panic
    under checked arithmetic) when `b ≥ 32`; that is modelled as `none`.
    `wrapping_add`/`wrapping_sub`/`wrapping_mul` reduce modulo `2 ^ 32`.
    `(a as i32 as i64) * (b as i32 as i64) >> 32` is an arithmetic (floor)
    shift of the exact product, hence `Int.fdiv`; the final `as u32` is
    `Int.emod (2 ^ 32)`. -/
def alu (a b : Nat) (op : AluType) : Option Nat :=
  match op with
  | .Add => some ((a + b) % 2 ^ 32)
  | .Sub => some ((2 ^ 32 + a - b % 2 ^ 32) % 2 ^ 32)
  | .And => some (a &&& b)
  | .Or => some (a ||| b)
  | .Xor => some (a ^^^ b)
  | .Sll => if b < 32 then some (a * 2 ^ b % 2 ^ 32) else none
  | .Srl => if b < 32 then some (a / 2 ^ b) else none
  | .Sra =>
    if b < 32 then some ((((Instruction.toInt32 a).fdiv (2 ^ b)).emod (2 ^ 32)).toNat) else none
  | .Slt => some (if Instruction.toInt32 a < Instruction.toInt32 b then 1 else 0)
  | .Sltu => some (if a < b then 1 else 0)
  | .Mul => some (a * b % 2 ^ 32)
  | .Mulh =>
    some (((Instruction.toInt32 a * Instruction.toInt32 b).fdiv (2 ^ 32)).emod (2 ^ 32)).toNat
  | .Mulhu => some (a * b / 2 ^ 32)
  | .Bsel => some b

/-- Outcome of one `step()` call (shared shape of cpu.rs / cpu mod.rs
    `RunState`). -/
inductive RunState
  | Running
  | Exit (code : Nat)
  | Break
  deriving DecidableEq, Repr

namespace InOrder

/-- cpu.rs `TempState`, one pipeline latch. -/
structure TempState where
  pc : Nat
  npc : Nat
  ir : Instruction
  imm_a : Nat
  imm_b : Nat
  imm_src : Nat
  cond : Bool
  alu_out : Nat
  mem_out : Nat
  write_out : Nat
  deriving DecidableEq, Repr

/-- Default latch: everything zero, `ir` the nop (cpu.rs `Default`). -/
def TempState.init : TempState := ⟨0, 0, Instruction.nop, 0, 0, 0, false, 0, 0, 0⟩

/-- cpu.rs `Memory`: 8192 words, addressed by byte address / 4.  The array is
    modelled as a total function from word index to word value; out-of-range
    indexing (a Rust panic) is never exercised here. -/
structure Memory where
  data : Nat → Nat

/-- cpu.rs `Memory::load`: `data[(addr / 4) as usize]`. -/
def Memory.load (m : Memory) (addr : Nat) : Nat := m.data (addr / 4)

/-- cpu.rs `Memory::store`. -/
def Memory.store (m : Memory) (addr value : Nat) : Memory :=
  ⟨fun i => if i = addr / 4 then value else m.data i⟩

/-- cpu.rs `Memory::load_mem`: copy the program words from index 0, the rest
    of the 8192-word array is zero. -/
def Memory.load_mem (words : List Nat) : Memory := ⟨fun i => words.getD i 0⟩

/-- cpu.rs `Register`: 32 words; reset value has regs[2] = 0x7ffc.
    `Register::set` writes unconditionally (there is no x0 guard; the source
    comments that writes to x0 are expected to be filtered by the caller). -/
structure Register where
  regs : Nat → Nat

/-- cpu.rs `impl Default for Register`. -/
def Register.init : Register := ⟨fun i => if i = 2 then 0x7ffc else 0⟩

/-- cpu.rs `Register::set` (no check of index 0). -/
def Register.set (r : Register) (index value : Nat) : Register :=
  ⟨fun j => if j = index then value else r.regs j⟩

/-- cpu.rs `CpuState` (the five-stage in-order core).  `inst_name` is a
    display-only map and is omitted. -/
structure CpuState where
  if_id : TempState
  id_ex : TempState
  ex_mem : TempState
  mem_wb : TempState
  regs : Register
  mem : Memory
  pc : Nat
  npc : Nat
  stall : Bool
  cycle : Nat
  data_hazard : Nat
  control_hazard : Nat
  exit : Bool

/-- cpu.rs `CpuState::default()` followed by `load`: copy the words, set
    `npc` and `pc` to the entry address. -/
def loadProgram (words : List Nat) (entry : Nat) : CpuState :=
  { if_id := TempState.init
    id_ex := TempState.init
    ex_mem := TempState.init
    mem_wb := TempState.init
    regs := Register.init
    mem := Memory.load_mem words
    pc := entry
    npc := entry
    stall := false
    cycle := 0
    data_hazard := 0
    control_hazard := 0
    exit := false }

/-- cpu.rs `CpuState::if_cycle`.  The decode `unwrap` panics on an
    undocumented opcode; that is the `none` outcome.  The early `return` after
    injecting a nop (jump in ID/EX or exit flag set) skips both the ecall
    check and the npc update, exactly as in the source.  The source guards the
    fetch and then the npc update separately by `!self.stall` with nothing
    changing `stall` in between; here the two tests are merged into one branch
    on `stall` with the (unchanged) ecall check in both arms.  `npc + 4` is a
    u32 addition, hence the `% 2 ^ 32`. -/
def if_cycle (s : CpuState) : Option CpuState :=
  let s1 := if s.ex_mem.cond then { s with npc := s.ex_mem.alu_out } else s
  if s1.id_ex.ir.is_jump || s1.exit then
    some { s1 with if_id := { s1.if_id with ir := Instruction.nop } }
  else if !s1.stall then
    match Instruction.from_binary (s1.mem.load s1.npc) with
    | none => none
    | some ir =>
      let s2 := { s1 with if_id := { s1.if_id with ir := ir } }
      let s3 := if s2.if_id.ir.is_ecall then { s2 with exit := true } else s2
      some { s3 with
        if_id := { s3.if_id with npc := (s3.npc + 4) % 2 ^ 32, pc := s3.npc }
        npc := (s3.npc + 4) % 2 ^ 32 }
  else if s1.if_id.ir.is_ecall then some { s1 with exit := true }
  else some s1

/-- cpu.rs `CpuState::id_cycle`.  `stall` is first reset; a load in ID/EX
    whose rd matches a source register of IF/ID raises the data-hazard stall
    and replaces ID/EX with a nop; otherwise IF/ID is latched into ID/EX and a
    jump raises the control-hazard stall. -/
def id_cycle (s : CpuState) : CpuState :=
  if s.id_ex.ir.is_load
      && (s.id_ex.ir.rd == s.if_id.ir.rs1 || s.id_ex.ir.rd == s.if_id.ir.rs2) then
    { s with
      stall := true
      data_hazard := s.data_hazard + 1
      id_ex := { s.id_ex with
        ir := Instruction.nop, pc := s.if_id.pc, npc := s.if_id.npc
        imm_a := 0, imm_b := 0, imm_src := 0 } }
  else
    let id_ex1 : TempState := { s.id_ex with
      pc := s.if_id.pc, npc := s.if_id.npc, ir := s.if_id.ir
      imm_a := s.regs.regs s.if_id.ir.rs1, imm_b := s.regs.regs s.if_id.ir.rs2
      imm_src := s.if_id.ir.imm }
    { s with
      stall := id_ex1.ir.is_jump
      id_ex := id_ex1
      control_hazard := if id_ex1.ir.is_jump then s.control_hazard + 1 else s.control_hazard }

/-- cpu.rs `CpuState::ex_cycle`.  `alu_op()` and `alu` can panic (invalid
    code, shift overflow); both are the `none` outcome. -/
def ex_cycle (s : CpuState) : Option CpuState :=
  let alu_in_a := if s.id_ex.ir.alu_use_reg1 then s.id_ex.imm_a else s.id_ex.pc
  let alu_in_b := if s.id_ex.ir.alu_use_reg2 then s.id_ex.imm_b else s.id_ex.imm_src
  match s.id_ex.ir.alu_op with
  | none => none
  | some op =>
    match alu alu_in_a alu_in_b op with
    | none => none
    | some out =>
      some { s with ex_mem := { s.ex_mem with
        pc := s.id_ex.pc, npc := s.id_ex.npc, ir := s.id_ex.ir
        imm_a := s.id_ex.imm_a, imm_b := s.id_ex.imm_b, imm_src := s.id_ex.imm_src
        alu_out := out
        cond := s.id_ex.ir.branch s.id_ex.imm_a s.id_ex.imm_b } }

/-- cpu.rs `CpuState::mem_cycle`: latch EX/MEM into MEM/WB, redirect npc on a
    taken jump, perform the memory operation, select `write_out`, and forward
    EX to ID.  `ex_mem.pc + 4` is a u32 addition. -/
def mem_cycle (s : CpuState) : CpuState :=
  let npc1 := if s.ex_mem.cond && s.ex_mem.ir.is_jump then s.ex_mem.alu_out else s.ex_mem.npc
  let memRes : Memory × Nat :=
    match s.ex_mem.ir.mem_op with
    | .Load => (s.mem, s.mem.load s.ex_mem.alu_out)
    | .Store => (s.mem.store s.ex_mem.alu_out s.ex_mem.imm_b, 0)
    | .None => (s.mem, 0)
  let write_out1 :=
    match s.ex_mem.ir.write_back with
    | .Mem => memRes.2
    | .Alu => s.ex_mem.alu_out
    | .Pc => (s.ex_mem.pc + 4) % 2 ^ 32
    | .None => 0
  let imm_a1 := if s.ex_mem.ir.rd == s.id_ex.ir.rs1 && s.ex_mem.ir.reg_write then write_out1
                else s.id_ex.imm_a
  let imm_b1 := if s.ex_mem.ir.rd == s.id_ex.ir.rs2 && s.ex_mem.ir.reg_write then write_out1
                else s.id_ex.imm_b
  { s with
    mem := memRes.1
    mem_wb := { s.mem_wb with
      pc := s.ex_mem.pc, npc := npc1, ir := s.ex_mem.ir
      imm_a := s.ex_mem.imm_a, imm_b := s.ex_mem.imm_b, imm_src := s.ex_mem.imm_src
      cond := s.ex_mem.cond, alu_out := s.ex_mem.alu_out
      mem_out := memRes.2, write_out := write_out1 }
    id_ex := { s.id_ex with imm_a := imm_a1, imm_b := imm_b1 } }

/-- cpu.rs `CpuState::wb_cycle`: write the register file, update the
    architectural pc, forward MEM to ID, then report termination.  The
    terminal check reads the register file updated this cycle (as the source
    does).  `Err("unknown ecall")` is a recoverable error, not a panic. -/
def wb_cycle (s : CpuState) : CpuState × Except String RunState :=
  let regs1 := if s.mem_wb.ir.reg_write then s.regs.set s.mem_wb.ir.rd s.mem_wb.write_out
               else s.regs
  let pc1 := if !s.mem_wb.ir.is_nop then s.mem_wb.npc else s.pc
  let imm_a1 := if s.mem_wb.ir.rd == s.id_ex.ir.rs1 && s.mem_wb.ir.reg_write then
                  s.mem_wb.write_out
                else s.id_ex.imm_a
  let imm_b1 := if s.mem_wb.ir.rd == s.id_ex.ir.rs2 && s.mem_wb.ir.reg_write then
                  s.mem_wb.write_out
                else s.id_ex.imm_b
  let s1 := { s with
    regs := regs1, pc := pc1
    id_ex := { s.id_ex with imm_a := imm_a1, imm_b := imm_b1 } }
  if s1.mem_wb.ir.is_ebreak then (s1, .ok .Break)
  else if s1.mem_wb.ir.is_ecall then
    if s1.regs.regs 10 = 17 then (s1, .ok (.Exit (s1.regs.regs 11)))
    else (s1, .error "unknown ecall")
  else (s1, .ok .Running)

/-- Outcome of an in-order `step()`: a normal return, a recoverable error
    (`Err` in Rust), or a panic (`crash`). -/
inductive StepRes
  | ok (s : CpuState) (r : RunState)
  | err (msg : String)
  | crash

/-- cpu.rs `CpuState::step`: run WB, MEM, EX, ID (each gated by the cycle
    counter during pipeline fill), then IF; increment the cycle counter and
    enforce the 10000-cycle ceiling.  An `Err` from WB aborts the remaining
    stages, as the `?` operator does in the source. -/
def step (s : CpuState) : StepRes :=
  let wbres := if 3 < s.cycle then wb_cycle s else (s, Except.ok RunState.Running)
  match wbres.2 with
  | .error e => .err e
  | .ok st =>
    let s2 := if 2 < s.cycle then mem_cycle wbres.1 else wbres.1
    match (if 1 < s.cycle then ex_cycle s2 else some s2) with
    | none => .crash
    | some s3 =>
      let s4 := if 0 < s.cycle then id_cycle s3 else s3
      match if_cycle s4 with
      | none => .crash
      | some s5 =>
        if 10000 < s5.cycle + 1 then .err "too many cycles"
        else .ok { s5 with cycle := s5.cycle + 1 } st

/-- Run `step` repeatedly from a previous outcome; an error or crash outcome
    is final. -/
def stepsRes (r : StepRes) : Nat → StepRes
  | 0 => r
  | n + 1 =>
    match r with
    | .ok s _ => stepsRes (step s) n
    | other => other

/-- Extract the state of a running outcome (used to build concrete witness
    states; falls back to the argument state on a terminal outcome). -/
def afterStep (s : CpuState) : CpuState :=
  match step s with
  | .ok s2 _ => s2
  | _ => s

end InOrder

namespace OoO

/-- station.rs `Source`: an operand is either a literal value or a wait on a
    station id. -/
inductive Source
  | station (id : Nat)
  | value (v : Nat)
  deriving DecidableEq, Repr

/-- station.rs `ReserveStationData`: packed tag byte
    (bit 0 busy, bit 1 executing, bits 2-5 alu_op) plus the two sources and
    the destination register. -/
structure RSData where
  tag : Nat
  source1 : Source
  source2 : Source
  dest_reg : Nat
  deriving DecidableEq, Repr

/-- station.rs `ReserveStationData::default`. -/
def RSData.init : RSData := ⟨0, .value 0, .value 0, 0⟩

/-- station.rs `ReserveStationData::new`: `tag = (alu_op << 2) | 0b1`. -/
def RSData.new (alu_op : Nat) (s1 s2 : Source) (d : Nat) : RSData :=
  ⟨(alu_op <<< 2) ||| 1, s1, s2, d⟩

/-- station.rs `ReserveStationData::busy`: `tag & 0b1 == 0b1`. -/
def RSData.busy (d : RSData) : Bool := d.tag &&& 1 == 1

/-- station.rs `ReserveStationData::executing`: `tag & 0b10 == 0b10`. -/
def RSData.executing (d : RSData) : Bool := d.tag &&& 2 == 2

/-- station.rs `ReserveStationData::execute`: `tag |= 0b10`. -/
def RSData.execute (d : RSData) : RSData := { d with tag := d.tag ||| 2 }

/-- station.rs `ReserveStationData::clear`: `tag &= 0b11111100`. -/
def RSData.clear (d : RSData) : RSData := { d with tag := d.tag &&& 0b11111100 }

/-- cdb.rs `CdbData`: station id, packed tag byte (bits 0-5 register number,
    bit 6 clock, bit 7 valid) and data word. -/
structure CdbData where
  station_id : Nat
  tag : Nat
  data : Nat
  deriving DecidableEq, Repr

/-- cdb.rs `CdbData::new`: `tag = (1 << 7) | num`. -/
def CdbData.new (station_id num data : Nat) : CdbData :=
  ⟨station_id, (1 <<< 7) ||| num, data⟩

/-- cdb.rs `CdbData::get_reg`: hit when `tag == 0b11000000 | num`. -/
def CdbData.get_reg (d : CdbData) (num : Nat) : Option Nat :=
  if d.tag = (0b11000000 ||| num) then some d.data else none

/-- cdb.rs `CdbData::get_station`: hit when the station matches and both the
    valid and clock bits are set (`(tag & 0b11000000) == 0b11000000`). -/
def CdbData.get_station (d : CdbData) (station_id : Nat) : Option Nat :=
  if d.station_id = station_id ∧ d.tag &&& 0b11000000 = 0b11000000 then some d.data else none

/-- cdb.rs `CdbData::is_empty`: `tag & 0b10000000 == 0`. -/
def CdbData.is_empty (d : CdbData) : Bool := d.tag &&& 0b10000000 == 0

/-- cdb.rs `CdbData::clock`: a fresh entry gains the clock bit (becomes
    visible); a visible entry is deleted (tag reset to 0). -/
def CdbData.clock (d : CdbData) : CdbData :=
  if d.is_empty then d
  else if d.tag &&& 0b01000000 = 0 then { d with tag := d.tag ||| 0b01000000 }
  else { d with tag := 0 }

/-- cdb.rs `Cdb`: the 8-entry broadcast buffer. -/
structure Cdb where
  buffer : List CdbData
  deriving DecidableEq, Repr

/-- cdb.rs `Cdb::default`. -/
def Cdb.init : Cdb := ⟨List.replicate 8 ⟨0, 0, 0⟩⟩

/-- cdb.rs `Cdb::get_reg`: first entry answering for this register. -/
def Cdb.get_reg (c : Cdb) (num : Nat) : Option Nat :=
  c.buffer.findSome? (fun d => d.get_reg num)

/-- cdb.rs `Cdb::get_station`: first entry answering for this station. -/
def Cdb.get_station (c : Cdb) (station_id : Nat) : Option Nat :=
  c.buffer.findSome? (fun d => d.get_station station_id)

/-- cdb.rs `Cdb::send` helper: place the entry in the first empty slot; a full
    buffer panics in the source, modelled as `none`. -/
def cdbSendList : List CdbData → CdbData → Option (List CdbData)
  | [], _ => none
  | x :: xs, e =>
    if x.is_empty then some (e :: xs)
    else (cdbSendList xs e).map (fun ys => x :: ys)

/-- cdb.rs `Cdb::send`. -/
def Cdb.send (c : Cdb) (station num data : Nat) : Option Cdb :=
  (cdbSendList c.buffer (CdbData.new station num data)).map Cdb.mk

/-- cdb.rs `Cdb::exec`: age every entry one step. -/
def Cdb.exec (c : Cdb) : Cdb := ⟨c.buffer.map CdbData.clock⟩

/-- station.rs `ReserveStation::try_send`: occupy the first non-busy slot and
    return its index. -/
def rsTrySend : List RSData → Nat → Source → Source → Nat → List RSData × Option Nat
  | [], _, _, _, _ => ([], none)
  | x :: xs, alu_op, s1, s2, d =>
    if !x.busy then (RSData.new alu_op s1 s2 d :: xs, some 0)
    else
      let rest := rsTrySend xs alu_op s1 s2 d
      (x :: rest.1, rest.2.map (fun i => i + 1))

/-- station.rs `exec_source` source-resolution: a waiting operand is replaced
    by a value the CDB currently presents for its station. -/
def sourceResolve (cdb : Cdb) : Source → Source
  | .station sid =>
    match cdb.get_station sid with
    | some v => .value v
    | none => .station sid
  | .value v => .value v

/-- station.rs `ReserveStation::exec_source`: for every busy, not-yet-executing
    slot, resolve its sources against the CDB (partial resolution persists);
    when both are concrete, mark the slot executing and report
    (index, alu_op = tag >> 2, source1, source2, dest_reg). -/
def rsExecSource (cdb : Cdb) : List RSData → List RSData × List (Nat × Nat × Nat × Nat × Nat)
  | [] => ([], [])
  | x :: xs =>
    let rest := rsExecSource cdb xs
    let shifted := rest.2.map (fun o => (o.1 + 1, o.2))
    if !x.busy || x.executing then (x :: rest.1, shifted)
    else
      let x1 := { x with source1 := sourceResolve cdb x.source1
                         source2 := sourceResolve cdb x.source2 }
      match x1.source1, x1.source2 with
      | .value v1, .value v2 =>
        (x1.execute :: rest.1, (0, x1.tag >>> 2, v1, v2, x1.dest_reg) :: shifted)
      | _, _ => (x1 :: rest.1, shifted)

/-- station.rs `ReserveStation::done`: no slot busy. -/
def rsDone (buf : List RSData) : Bool := buf.all (fun d => !d.busy)

/-- Clear slot `i` of a buffer (`self.buffer[i].clear()`). -/
def rsClearAt (buf : List RSData) (i : Nat) : List RSData :=
  match buf.get? i with
  | some x => buf.set i x.clear
  | none => buf

/-- Modelled from the spec (src/src/cpu/utils.rs is not present in the
    sources): register identifiers in [0, 32) are architectural integer
    registers and [32, 64) architectural float registers, so `is_fp` holds
    exactly for identifiers at or above 32. -/
def is_fp (reg : Nat) : Bool := 32 ≤ reg

/-- IEEE-754 single-precision add/subtract unit (station.rs `fadd`).
    Floating-point arithmetic is outside the shallow embedding; the function
    is opaque — no theorem depends on its value. -/
def fadd (_a _b _op : Nat) : Nat := 0

/-- IEEE-754 single-precision multiply/divide unit (station.rs `fmul`),
    opaque for the same reason as `fadd`. -/
def fmul (_a _b _op : Nat) : Nat := 0

/-- station.rs `IntegerStation` (a `ReserveStation<3>`). -/
structure IntegerStation where
  buffer : List RSData
  deriving DecidableEq, Repr

/-- station.rs `FaddStation`: a `ReserveStation<2>` plus per-slot in-flight
    results (result word, dest reg, remaining cycles). -/
structure FaddStation where
  reserve : List RSData
  result : List (Nat × Nat × Nat)
  deriving DecidableEq, Repr

/-- station.rs `FmulStation`: same shape as `FaddStation`. -/
structure FmulStation where
  reserve : List RSData
  result : List (Nat × Nat × Nat)
  deriving DecidableEq, Repr

/-- station.rs `LDStation`: a `ReserveStation<5>` plus per-slot in-flight
    results.  The `SharedMemory` handle is supplied by the core at each
    `execute` call (the Rust side shares it through `Rc<UnsafeCell<_>>`). -/
structure LDStation where
  reserve : List RSData
  result : List (Nat × Nat × Nat)
  deriving DecidableEq, Repr

/-- The multi-cycle result loop shared verbatim by the FAdd, FMul and
    LoadStore `execute` methods in station.rs:
      for (i, data) in result.iter_mut().enumerate() {
        data.2 = data.2.saturating_sub(1);
        if data.2 == 1 { cdb.send(i + base, data.1, data.0); buffer[i].clear(); } }
    `base` is the station-id offset (1 load/store, 9 fadd, 11 fmul).
    A CDB overflow panic is `none`.  Nat subtraction is saturating. -/
def fuTimerLoop (base : Nat) :
    List (Nat × Nat × Nat) → List RSData → Cdb → Nat →
      Option (List (Nat × Nat × Nat) × List RSData × Cdb)
  | [], buf, cdb, _ => some ([], buf, cdb)
  | (r, d, c) :: rest, buf, cdb, i =>
    let c2 := c - 1
    if c2 = 1 then
      match cdb.send (i + base) d r with
      | none => none
      | some cdb2 =>
        (fuTimerLoop base rest (rsClearAt buf i) cdb2 (i + 1)).map
          (fun out => ((r, d, c2) :: out.1, out.2.1, out.2.2))
    else
      (fuTimerLoop base rest buf cdb (i + 1)).map
        (fun out => ((r, d, c2) :: out.1, out.2.1, out.2.2))

/-- Write slot `i` of a result array (`self.result[id] = ...`). -/
def resSetAt (res : List (Nat × Nat × Nat)) (i : Nat) (v : Nat × Nat × Nat) :
    List (Nat × Nat × Nat) :=
  res.set i v

/-- station.rs `impl Station for IntegerStation`, `try_send`: the assert that
    the destination is an integer register panics (outer `none`) when it
    fails; otherwise slot ids are offset by 6. -/
def IntegerStation.try_send (st : IntegerStation) (alu_op : Nat) (s1 s2 : Source)
    (d : Nat) : Option (IntegerStation × Option Nat) :=
  if is_fp d then none
  else
    let res := rsTrySend st.buffer alu_op s1 s2 d
    some (⟨res.1⟩, res.2.map (fun i => i + 6))

/-- station.rs `IntegerStation::execute` result loop: compute through the ALU,
    broadcast on station id `id + 6`, clear the slot.  ALU panics and CDB
    overflow are `none`. -/
def integerExecLoop (buf : List RSData) (cdb : Cdb) :
    List (Nat × Nat × Nat × Nat × Nat) → Option (List RSData × Cdb)
  | [] => some (buf, cdb)
  | (id, op, v1, v2, dest) :: rest =>
    match AluType.from_u32 op with
    | none => none
    | some aop =>
      match alu v1 v2 aop with
      | none => none
      | some result =>
        match cdb.send (id + 6) dest result with
        | none => none
        | some cdb2 => integerExecLoop (rsClearAt buf id) cdb2 rest

/-- station.rs `IntegerStation::execute`. -/
def IntegerStation.execute (st : IntegerStation) (cdb : Cdb) :
    Option (IntegerStation × Cdb) :=
  let src := rsExecSource cdb st.buffer
  (integerExecLoop src.1 cdb src.2).map (fun out => (⟨out.1⟩, out.2))

/-- station.rs `IntegerStation::done`. -/
def IntegerStation.done (st : IntegerStation) : Bool := rsDone st.buffer

/-- station.rs `FaddStation::try_send`: asserts the destination is a float
    register; slot ids offset by 9. -/
def FaddStation.try_send (st : FaddStation) (alu_op : Nat) (s1 s2 : Source)
    (d : Nat) : Option (FaddStation × Option Nat) :=
  if !is_fp d then none
  else
    let res := rsTrySend st.reserve alu_op s1 s2 d
    some ({ st with reserve := res.1 }, res.2.map (fun i => i + 9))

/-- station.rs `FaddStation::execute` dispatch loop:
    `self.result[id] = (fadd(source1, source2, alu_op), dest, 3)`. -/
def faddDispatch (res : List (Nat × Nat × Nat)) :
    List (Nat × Nat × Nat × Nat × Nat) → List (Nat × Nat × Nat)
  | [] => res
  | (id, op, v1, v2, dest) :: rest => faddDispatch (resSetAt res id (fadd v1 v2 op, dest, 3)) rest

/-- station.rs `FaddStation::execute`: age the in-flight results (broadcasting
    those that reach 1), then dispatch every newly ready slot with a 3-cycle
    timer. -/
def FaddStation.execute (st : FaddStation) (cdb : Cdb) : Option (FaddStation × Cdb) :=
  match fuTimerLoop 9 st.result st.reserve cdb 0 with
  | none => none
  | some (res2, buf2, cdb2) =>
    let src := rsExecSource cdb2 buf2
    some (⟨src.1, faddDispatch res2 src.2⟩, cdb2)

/-- station.rs `FaddStation::done`. -/
def FaddStation.done (st : FaddStation) : Bool :=
  rsDone st.reserve && st.result.all (fun d => d.2.2 == 0)

/-- station.rs `FmulStation::try_send`: slot ids offset by 11. -/
def FmulStation.try_send (st : FmulStation) (alu_op : Nat) (s1 s2 : Source)
    (d : Nat) : Option (FmulStation × Option Nat) :=
  if !is_fp d then none
  else
    let res := rsTrySend st.reserve alu_op s1 s2 d
    some ({ st with reserve := res.1 }, res.2.map (fun i => i + 11))

/-- station.rs `FmulStation::execute` dispatch loop: a multiply (op 0) takes
    10 cycles and a divide (op 1) takes 40; the stored timer is `remain + 1`.
    Any other op is the Rust `unreachable` panic. -/
def fmulDispatch (res : List (Nat × Nat × Nat)) :
    List (Nat × Nat × Nat × Nat × Nat) → Option (List (Nat × Nat × Nat))
  | [] => some res
  | (id, op, v1, v2, dest) :: rest =>
    match (match op with | 0 => some 10 | 1 => some 40 | _ => none) with
    | none => none
    | some remain => fmulDispatch (resSetAt res id (fmul v1 v2 op, dest, remain + 1)) rest

/-- station.rs `FmulStation::execute`. -/
def FmulStation.execute (st : FmulStation) (cdb : Cdb) : Option (FmulStation × Cdb) :=
  match fuTimerLoop 11 st.result st.reserve cdb 0 with
  | none => none
  | some (res2, buf2, cdb2) =>
    let src := rsExecSource cdb2 buf2
    match fmulDispatch res2 src.2 with
    | none => none
    | some res3 => some (⟨src.1, res3⟩, cdb2)

/-- station.rs `FmulStation::done`. -/
def FmulStation.done (st : FmulStation) : Bool :=
  rsDone st.reserve && st.result.all (fun d => d.2.2 == 0)

/-- station.rs `LDStation::try_send`: asserts source2 is a literal value;
    slot ids offset by 1. -/
def LDStation.try_send (st : LDStation) (mem_op : Nat) (s1 s2 : Source)
    (d : Nat) : Option (LDStation × Option Nat) :=
  match s2 with
  | .station _ => none
  | .value _ =>
    let res := rsTrySend st.reserve mem_op s1 s2 d
    some ({ st with reserve := res.1 }, res.2.map (fun i => i + 1))

/-- station.rs `LDStation::execute` dispatch loop: a load (op 0) reads
    `mem[source1.wrapping_add(source2)]` with a 2-cycle timer; the store arm
    is `todo` and any other op `unreachable` (both panics, `none`). -/
def ldDispatch (mem : Nat → Nat) (res : List (Nat × Nat × Nat)) :
    List (Nat × Nat × Nat × Nat × Nat) → Option (List (Nat × Nat × Nat))
  | [] => some res
  | (id, op, v1, v2, dest) :: rest =>
    match op with
    | 0 => ldDispatch mem (resSetAt res id (mem ((v1 + v2) % 2 ^ 32 / 4), dest, 2)) rest
    | _ => none

/-- station.rs `LDStation::execute` (the shared memory handle is an explicit
    argument here). -/
def LDStation.execute (st : LDStation) (mem : Nat → Nat) (cdb : Cdb) :
    Option (LDStation × Cdb) :=
  match fuTimerLoop 1 st.result st.reserve cdb 0 with
  | none => none
  | some (res2, buf2, cdb2) =>
    let src := rsExecSource cdb2 buf2
    match ldDispatch mem res2 src.2 with
    | none => none
    | some res3 => some (⟨src.1, res3⟩, cdb2)

/-- station.rs `LDStation::done`. -/
def LDStation.done (st : LDStation) : Bool :=
  rsDone st.reserve && st.result.all (fun d => d.2.2 == 0)

/-- cpu/mod.rs `CpuState` (the out-of-order core).  The rename table
    (`AppointForm`), register file and shared memory are total functions; the
    display-only `inst_name` map is omitted. -/
structure CpuState where
  ld_station : LDStation
  integer_station : IntegerStation
  fadd_station : FaddStation
  fmul_station : FmulStation
  form : Nat → Nat
  wait_insts : List Instruction
  cdb : Cdb
  regs : Nat → Nat
  mem : Nat → Nat
  pc : Nat
  cycle : Nat
  exit : Bool

/-- cpu/mod.rs `Register::set` / `AppointForm::set` (no x0 guard). -/
def fnSet (f : Nat → Nat) (i v : Nat) : Nat → Nat :=
  fun j => if j = i then v else f j

/-- cpu/mod.rs `CpuState::new` followed by `load`. -/
def loadProgram (words : List Nat) (entry : Nat) : CpuState :=
  { ld_station := ⟨List.replicate 5 RSData.init, List.replicate 5 (0, 0, 0)⟩
    integer_station := ⟨List.replicate 3 RSData.init⟩
    fadd_station := ⟨List.replicate 2 RSData.init, List.replicate 2 (0, 0, 0)⟩
    fmul_station := ⟨List.replicate 2 RSData.init, List.replicate 2 (0, 0, 0)⟩
    form := fun _ => 0
    wait_insts := []
    cdb := Cdb.init
    regs := fun i => if i = 2 then 0x7ffc else 0
    mem := fun i => words.getD i 0
    pc := entry
    cycle := 0
    exit := false }

/-- cpu/mod.rs `CpuState::write_back`, body of the loop for one register
    index: a register whose rename entry is set commits a matching CDB
    station broadcast (clearing the entry), otherwise takes a CDB register
    broadcast if one exists. -/
def wbAt (s : CpuState) (i : Nat) : CpuState :=
  let id := s.form i
  if id ≠ 0 then
    match s.cdb.get_station id with
    | some val => { s with regs := fnSet s.regs i val, form := fnSet s.form i 0 }
    | none =>
      match s.cdb.get_reg i with
      | some val => { s with regs := fnSet s.regs i val }
      | none => s
  else s

/-- cpu/mod.rs `CpuState::write_back`: scan registers 0..63 in order. -/
def write_back (s : CpuState) : CpuState := (List.range 64).foldl wbAt s

/-- cpu/mod.rs `CpuState::execute`: run the four banks, then age the CDB. -/
def execute (s : CpuState) : Option CpuState :=
  match s.ld_station.execute s.mem s.cdb with
  | none => none
  | some (ld2, cdb1) =>
    match s.integer_station.execute cdb1 with
    | none => none
    | some (int2, cdb2) =>
      match s.fadd_station.execute cdb2 with
      | none => none
      | some (fa2, cdb3) =>
        match s.fmul_station.execute cdb3 with
        | none => none
        | some (fm2, cdb4) =>
          some { s with ld_station := ld2, integer_station := int2
                        fadd_station := fa2, fmul_station := fm2
                        cdb := cdb4.exec }

/-- Outcome of an out-of-order `step()` / `issue()`. -/
inductive ORes
  | ok (s : CpuState) (r : RunState)
  | err (msg : String)
  | crash

/-- station.rs `Station::try_send_inst` operand translation: a source register
    whose rename entry is 0 reads the architectural register, otherwise waits
    on the named station; an unused ALU input is replaced by the pc
    (source1) or the immediate (source2).  `alu_op() as u8` panics (none) on
    an invalid code. -/
def computeSources (inst : Instruction) (form regs : Nat → Nat) (pc : Nat) :
    Option (Nat × Source × Source) :=
  let source1 := if form inst.rs1 = 0 then Source.value (regs inst.rs1)
                 else Source.station (form inst.rs1)
  let source2 := if form inst.rs2 = 0 then Source.value (regs inst.rs2)
                 else Source.station (form inst.rs2)
  match inst.alu_op with
  | none => none
  | some op =>
    let source1 := if !inst.alu_use_reg1 then Source.value pc else source1
    let source2 := if !inst.alu_use_reg2 then Source.value inst.imm else source2
    some (op.toCode, source1, source2)

/-- cpu/mod.rs `CpuState::issue`, body for one pending instruction: pick the
    bank by station class and call its `try_send`; on success record the
    station id in the rename table (the source stores it both inside
    `try_send_inst` and again in `issue` — the same value twice), on failure
    re-enqueue at the back.  `station()` panics and the `StationType::None`
    arm is `unimplemented`; both are `none`. -/
def issueStep (s : CpuState) (inst : Instruction) : Option CpuState :=
  match computeSources inst s.form s.regs s.pc with
  | none => none
  | some (op, s1, s2) =>
    match inst.station with
    | none => none
    | some .None => none
    | some .LoadStore =>
      match s.ld_station.try_send op s1 s2 inst.rd with
      | none => none
      | some (st2, some id) =>
        some { s with ld_station := st2, form := fnSet s.form inst.rd id }
      | some (st2, none) =>
        some { s with ld_station := st2, wait_insts := s.wait_insts ++ [inst] }
    | some .Integer =>
      match s.integer_station.try_send op s1 s2 inst.rd with
      | none => none
      | some (st2, some id) =>
        some { s with integer_station := st2, form := fnSet s.form inst.rd id }
      | some (st2, none) =>
        some { s with integer_station := st2, wait_insts := s.wait_insts ++ [inst] }
    | some .FAdd =>
      match s.fadd_station.try_send op s1 s2 inst.rd with
      | none => none
      | some (st2, some id) =>
        some { s with fadd_station := st2, form := fnSet s.form inst.rd id }
      | some (st2, none) =>
        some { s with fadd_station := st2, wait_insts := s.wait_insts ++ [inst] }
    | some .FMul =>
      match s.fmul_station.try_send op s1 s2 inst.rd with
      | none => none
      | some (st2, some id) =>
        some { s with fmul_station := st2, form := fnSet s.form inst.rd id }
      | some (st2, none) =>
        some { s with fmul_station := st2, wait_insts := s.wait_insts ++ [inst] }

/-- cpu/mod.rs `CpuState::issue` retry loop: `for _ in 0..wait_insts.len()`,
    popping from the front each time. -/
def issueLoop (s : CpuState) : Nat → Option CpuState
  | 0 => some s
  | n + 1 =>
    match s.wait_insts with
    | [] => some s
    | inst :: rest =>
      match issueStep { s with wait_insts := rest } inst with
      | none => none
      | some s2 => issueLoop s2 n

/-- cpu/mod.rs `CpuState::issue`: decode the word at pc (a failure is the
    recoverable `Err`), set the exit flag when the station class is `None`
    (returning without enqueueing), otherwise push the instruction and run the
    retry loop. -/
def issue (s : CpuState) : ORes :=
  match Instruction.from_binary (s.mem (s.pc / 4)) with
  | none => .err "invalid instruction"
  | some inst =>
    match inst.station with
    | none => .crash
    | some .None => .ok { s with exit := true } .Running
    | some _ =>
      let s1 := { s with wait_insts := s.wait_insts ++ [inst] }
      match issueLoop s1 s1.wait_insts.length with
      | none => .crash
      | some s2 => .ok s2 .Running

/-- cpu/mod.rs `CpuState::step`: write-back, execute, then (unless the exit
    flag is set) issue and advance pc by 4; once the exit flag is set and all
    banks and the pending queue are drained, report Exit(reg[11]); finally
    bump the cycle counter against the 10000-cycle ceiling. -/
def step (s : CpuState) : ORes :=
  let s := write_back s
  match execute s with
  | none => .crash
  | some s =>
    let afterIssue : ORes :=
      if !s.exit then
        match issue s with
        | .ok s2 st => .ok { s2 with pc := (s2.pc + 4) % 2 ^ 32 } st
        | other => other
      else .ok s .Running
    match afterIssue with
    | .ok s2 st =>
      let st2 :=
        if s2.exit && s2.ld_station.done && s2.integer_station.done
            && s2.fadd_station.done && s2.fmul_station.done && s2.wait_insts.isEmpty then
          RunState.Exit (s2.regs 11)
        else st
      if 10000 < s2.cycle + 1 then .err "too many cycles"
      else .ok { s2 with cycle := s2.cycle + 1 } st2
    | other => other

/-- Run `step` repeatedly from a previous outcome; an error or crash outcome
    is final. -/
def stepsRes (r : ORes) : Nat → ORes
  | 0 => r
  | n + 1 =>
    match r with
    | .ok s _ => stepsRes (step s) n
    | other => other

/-- Architectural register `i` of a running outcome. -/
def ORes.reg (r : ORes) (i : Nat) : Option Nat :=
  match r with
  | .ok s _ => some (s.regs i)
  | _ => none

/-- Exit flag of a running outcome. -/
def ORes.exitFlag (r : ORes) : Option Bool :=
  match r with
  | .ok s _ => some s.exit
  | _ => none

/-- Tag byte of slot `i` of the integer station of a running outcome. -/
def ORes.intTag (r : ORes) (i : Nat) : Option Nat :=
  match r with
  | .ok s _ => (s.integer_station.buffer.get? i).map RSData.tag
  | _ => none

/-- CDB answer for a station id in a running outcome. -/
def ORes.cdbStation (r : ORes) (station_id : Nat) : Option (Option Nat) :=
  match r with
  | .ok s _ => some (s.cdb.get_station station_id)
  | _ => none

/-- Tag byte of slot `i` of the FAdd station of a running outcome. -/
def ORes.faddTag (r : ORes) (i : Nat) : Option Nat :=
  match r with
  | .ok s _ => (s.fadd_station.reserve.get? i).map RSData.tag
  | _ => none

end OoO

/-- Bit field W[hi:lo] of a word, the notation used by the specification
    (spec 4.1): the value of bits lo..hi. -/
def bitField (w lo hi : Nat) : Nat := w / 2 ^ lo % 2 ^ (hi - lo + 1)

/-- Modelled from the spec wording of claim C3 / spec invariant 5: sign
    extension of a width-`width` field value `v` yields `v` when bit
    `width - 1` is clear and `v | (2 ^ 32 - 2 ^ width)` otherwise (the `|` is
    of disjoint ranges, rendered as `+`). -/
def sign_extend_spec (v width : Nat) : Nat :=
  if v / 2 ^ (width - 1) % 2 = 0 then v else v + (2 ^ 32 - 2 ^ width)

/-- Modelled from the spec wording of claim C3 / spec 4.1: the class-specific
    immediate assembly.
      I: sign_extend(W[31:20], 12)
      S: sign_extend({W[31:25], W[11:7]}, 12)
      B: sign_extend({W[31], W[7], W[30:25], W[11:8], 0}, 13)
      U: W & 0xFFFFF000
      J: sign_extend({W[31], W[19:12], W[20], W[30:21], 0}, 21)
    R-type carries no immediate: the decoder stores 0 there. -/
def imm_spec (w : Nat) : InstType → Nat
  | .I => sign_extend_spec (bitField w 20 31) 12
  | .S => sign_extend_spec (bitField w 25 31 * 2 ^ 5 + bitField w 7 11) 12
  | .B => sign_extend_spec (bitField w 31 31 * 2 ^ 12 + bitField w 7 7 * 2 ^ 11
            + bitField w 25 30 * 2 ^ 5 + bitField w 8 11 * 2 ^ 1) 13
  | .U => bitField w 12 31 * 2 ^ 12
  | .J => sign_extend_spec (bitField w 31 31 * 2 ^ 20 + bitField w 12 19 * 2 ^ 12
            + bitField w 20 20 * 2 ^ 11 + bitField w 21 30 * 2 ^ 1) 21
  | .R => 0

/-- Decoded `addi x1, x0, -1` (word 0xFFF00093), a concrete instruction used
    by the witness of the immediate-decoding theorem. -/
def c3Example : Instruction := (Instruction.from_binary 0xFFF00093).getD Instruction.nop

/-- Concrete in-order program for the load-use hazard scenario:
    `lw x1, 0(x0); add x2, x1, x1; nop; nop; nop`. -/
def c4Program : List Nat := [0x00002083, 0x00108133, 0x33, 0x33, 0x33]

/-- The state of the in-order core two cycles into `c4Program`: the load sits
    in ID/EX, its dependent `add` in IF/ID. -/
def c4Hazard : InOrder.CpuState :=
  InOrder.afterStep (InOrder.afterStep (InOrder.loadProgram c4Program 0))

/-- One step past `c4Hazard` (the stall cycle). -/
def c4After1 : InOrder.CpuState := InOrder.afterStep c4Hazard

/-- Two steps past `c4Hazard` (the cycle that re-reads IF/ID). -/
def c4After2 : InOrder.CpuState := InOrder.afterStep c4After1

/-- An out-of-order core state whose FAdd station holds one admitted,
    not-yet-dispatched operation with both sources concrete; the exit flag is
    set so that each step is a pure write-back/execute clock tick. -/
def mkFaddTest (a b d op : Nat) : OoO.CpuState :=
  { OoO.loadProgram [] 0 with
    exit := true
    fadd_station := ⟨[OoO.RSData.new op (.value a) (.value b) d, OoO.RSData.init],
                     [(0, 0, 0), (0, 0, 0)]⟩ }

/-- Same scenario for the FMul station. -/
def mkFmulTest (a b d op : Nat) : OoO.CpuState :=
  { OoO.loadProgram [] 0 with
    exit := true
    fmul_station := ⟨[OoO.RSData.new op (.value a) (.value b) d, OoO.RSData.init],
                     [(0, 0, 0), (0, 0, 0)]⟩ }

/-- Same scenario for the LoadStore station, over the memory whose word `i`
    holds `100 + i`. -/
def mkLdTest (a b d : Nat) : OoO.CpuState :=
  { OoO.loadProgram [] 0 with
    exit := true
    mem := fun i => 100 + i
    ld_station := ⟨OoO.RSData.new 0 (.value a) (.value b) d :: List.replicate 4 OoO.RSData.init,
                   List.replicate 5 (0, 0, 0)⟩ }

/-- A concrete in-order state committing `ecall` in MEM/WB with
    reg[10] = 17 (the exit syscall number) and reg[11] = 42. -/
def c7Example : InOrder.CpuState :=
  { InOrder.loadProgram [] 0 with
    mem_wb := { InOrder.TempState.init with
                ir := (Instruction.from_binary 0x73).getD Instruction.nop }
    regs := ⟨fun i => if i = 10 then 17 else if i = 11 then 42 else 0⟩ }

/-- C1 (code bug evidence): the decoder gives the ecall word 0x73 station
    class `Integer`, not `None` (only B-type words fall into `None`), and
    consequently one out-of-order step on a program whose first word is ecall
    leaves the exit flag false and admits the ecall into integer reservation
    station slot 0 (tag byte 1 = busy with alu op Add) instead of stopping it
    at issue. -/
theorem c1_ecall_station_is_integer :
    ((Instruction.from_binary 0x73).bind Instruction.station = some StationType.Integer)
    ∧ ((Instruction.from_binary 0x63).bind Instruction.station = some StationType.None)
    ∧ ((OoO.stepsRes (.ok (OoO.loadProgram [0x73] 0) .Running) 1).exitFlag = some false)
    ∧ ((OoO.stepsRes (.ok (OoO.loadProgram [0x73] 0) .Running) 1).intTag 0 = some 1) := by
  refine ⟨by decide, by decide, by decide, by decide⟩

/-- C2 (code bug evidence): running the out-of-order core for three cycles on
    `addi x0, x0, 5; nop; nop; nop` leaves architectural register x0 holding
    5: issue records a rename entry for destination register 0 and write-back
    then commits the CDB broadcast into x0, so x0 does not stay zero in the
    out-of-order core. -/
theorem c2_ooo_core_writes_x0 :
    (OoO.stepsRes (.ok (OoO.loadProgram [0x00500013, 0x33, 0x33, 0x33] 0) .Running) 3).reg 0
      = some 5 := by
  decide

/-- C5 (code bug evidence): with both sources concrete, an FAdd add dispatched
    at step 1 (slot tag 3 = busy and executing) is broadcast on the CDB after
    step 3 — 2 execute phases after dispatch, not the claimed 3; a load is
    broadcast after step 2 — 1 execute phase after dispatch, not the claimed
    2 (the loaded value is mem[(8+4)/4] = 103); the FMul timers (set to
    latency + 1 in the source) do give exactly 10 cycles for multiply and 40
    for divide. -/
theorem c5_fadd_and_load_latency_off_by_one :
    ((OoO.stepsRes (.ok (mkFaddTest 5 7 33 0) .Running) 1).faddTag 0 = some 3)
    ∧ ((OoO.stepsRes (.ok (mkFaddTest 5 7 33 0) .Running) 2).cdbStation 9 = some none)
    ∧ ((OoO.stepsRes (.ok (mkFaddTest 5 7 33 0) .Running) 3).cdbStation 9
        = some (some (OoO.fadd 5 7 0)))
    ∧ ((OoO.stepsRes (.ok (mkLdTest 8 4 1) .Running) 1).cdbStation 1 = some none)
    ∧ ((OoO.stepsRes (.ok (mkLdTest 8 4 1) .Running) 2).cdbStation 1 = some (some 103))
    ∧ ((OoO.stepsRes (.ok (mkFmulTest 5 7 33 0) .Running) 10).cdbStation 11 = some none)
    ∧ ((OoO.stepsRes (.ok (mkFmulTest 5 7 33 0) .Running) 11).cdbStation 11
        = some (some (OoO.fmul 5 7 0)))
    ∧ ((OoO.stepsRes (.ok (mkFmulTest 5 7 33 1) .Running) 40).cdbStation 11 = some none)
    ∧ ((OoO.stepsRes (.ok (mkFmulTest 5 7 33 1) .Running) 41).cdbStation 11
        = some (some (OoO.fmul 5 7 1))) := by
  refine ⟨by decide, by decide, by decide, by decide, by decide, by decide, by decide,
    by decide, by decide⟩

/-- C8 (code bug evidence): the ALU's shifts do not mask the shift amount to
    its low 5 bits — a shift by 32 overflows (a Rust panic, modelled as
    `none`) while a shift by 0 = 32 mod 32 succeeds, so Sll/Srl/Sra are not
    total and do not depend only on the low 5 bits of b.  The remaining parts
    of the claim do hold on the code: Add/Sub/Mul wrap modulo 2^32 and Sra is
    an arithmetic, sign-preserving shift for b < 32. -/
theorem c8_shift_amount_not_masked :
    (alu 1 32 .Sll = none) ∧ (alu 1 0 .Sll = some 1)
    ∧ (alu 1 32 .Srl = none) ∧ (alu 1 0 .Srl = some 1)
    ∧ (alu 2147483648 32 .Sra = none)
    ∧ (alu 4294967295 1 .Add = some 0)
    ∧ (alu 0 1 .Sub = some 4294967295)
    ∧ (alu 4294967295 2 .Mul = some 4294967294)
    ∧ (alu 2147483648 1 .Sra = some 3221225472) := by
  refine ⟨by decide, by decide, by decide, by decide, by decide, by decide, by decide,
    by decide, by decide⟩

/-- C9 counterexample: `nop()` decodes as an R-type instruction, whose
    writeback source is `Alu`, not `None` as claimed. -/
theorem c9_nop_write_back_is_alu :
    Instruction.nop.write_back = WBType.Alu ∧ WBType.Alu ≠ WBType.None := by
  refine ⟨by decide, by decide⟩

/-- C9 (amended): `nop()` is the decode of 0x00000033, satisfies is_nop, does
    not write a register, performs no memory operation — and its writeback
    source tag is `Alu` (harmless since reg_write is false), not `None`. -/
theorem c9_nop_properties :
    (Instruction.from_binary 0x00000033 = some Instruction.nop)
    ∧ Instruction.nop.binary = 0x00000033
    ∧ Instruction.nop.is_nop = true
    ∧ Instruction.nop.reg_write = false
    ∧ Instruction.nop.mem_op = MemType.None
    ∧ Instruction.nop.write_back = WBType.Alu := by
  refine ⟨by decide, by decide, by decide, by decide, by decide, by decide⟩

/-- C10: loading the one-word program `nop` (entry 0) into the in-order core,
    the first step fetches and decodes the nop, and the second step falls off
    the end of the program: IF fetches the word 0x00000000 from uninitialized
    memory, whose opcode is undocumented (`from_binary` fails), and `step()`
    panics through the unwrap (the `crash` outcome) instead of returning an
    `Err`. -/
theorem c10_if_stage_decode_unwrap_panics :
    (InOrder.stepsRes (.ok (InOrder.loadProgram [0x33] 0) .Running) 2 = .crash)
    ∧ (Instruction.from_binary 0x33 = some Instruction.nop)
    ∧ (Instruction.from_binary 0x00000000 = none) := by
  refine ⟨rfl, by decide, by decide⟩

/-- Helper: on arguments below `2 ^ width` (which is how the decoder calls
    it), the source `sign_extend` agrees with the specification's description
    of sign extension. -/
theorem sign_extend_eq (v width : Nat) (h0 : 0 < width) (h32 : width ≤ 32)
    (hv : v < 2 ^ width) : sign_extend v width = sign_extend_spec v width := by
  have hpow : 2 ^ width * 2 ^ (32 - width) = 2 ^ 32 := by
    rw [← pow_add]
    congr 1
    omega
  have hppos : 0 < 2 ^ (32 - width) := Nat.pos_pow_of_pos _ (by norm_num)
  have hlt : v * 2 ^ (32 - width) < 2 ^ 32 := by
    calc v * 2 ^ (32 - width) < 2 ^ width * 2 ^ (32 - width) :=
          Nat.mul_lt_mul_of_lt_of_le hv (le_refl _) hppos
    _ = 2 ^ 32 := hpow
  have hmask : (2 ^ (32 - width) - 1) * 2 ^ width = 2 ^ 32 - 2 ^ width := by
    rw [Nat.sub_mul, one_mul, Nat.mul_comm, hpow]
  simp only [sign_extend, sign_extend_spec]
  rw [Nat.mod_eq_of_lt hlt, Nat.mul_div_cancel v hppos, hmask]
  rcases Nat.mod_two_eq_zero_or_one (v / 2 ^ (width - 1)) with h | h
  · rw [h]
    simp
  · rw [h]
    simp

/-- C3: for every 32-bit word accepted by the decoder, the immediate stored in
    the resulting instruction equals the class-specific bit assembly of the
    word, sign-extended per the specification (zero-extended low bits for
    U-type); and sign extension of a width-W field value below 2^W yields the
    value itself when bit W−1 is clear and the value plus 2^32 − 2^W (the
    disjoint bitwise or of the claim) otherwise. -/
theorem c3_immediate_decoding (w : Nat) (hw : w < 2 ^ 32) (i : Instruction)
    (h : Instruction.from_binary w = some i) :
    i.imm = imm_spec w i.inst_type
    ∧ ∀ v width, 0 < width → width ≤ 32 → v < 2 ^ width →
        sign_extend v width = sign_extend_spec v width := by
  refine ⟨?_, fun v width h0 h32 hv => sign_extend_eq v width h0 h32 hv⟩
  simp only [Instruction.from_binary] at h
  split at h
  · exact absurd h (by simp)
  · rename_i itype heq
    rw [Option.some_inj] at h
    subst h
    simp only
    cases itype
    · rfl
    · -- I-type
      have hb : bitField w 20 31 = w / 2 ^ 20 := by
        unfold bitField
        omega
      show sign_extend (w / 2 ^ 20) 12 = imm_spec w InstType.I
      unfold imm_spec
      rw [hb]
      exact sign_extend_eq _ 12 (by norm_num) (by norm_num) (by omega)
    · -- S-type
      show sign_extend (w / 2 ^ 7 % 2 ^ 5 + w / 2 ^ 25 % 2 ^ 7 * 2 ^ 5) 12 = imm_spec w InstType.S
      unfold imm_spec
      have harg : bitField w 25 31 * 2 ^ 5 + bitField w 7 11
          = w / 2 ^ 7 % 2 ^ 5 + w / 2 ^ 25 % 2 ^ 7 * 2 ^ 5 := by
        unfold bitField
        omega
      rw [harg]
      exact sign_extend_eq _ 12 (by norm_num) (by norm_num) (by omega)
    · -- B-type
      show sign_extend (w / 2 ^ 8 % 2 ^ 4 * 2 + w / 2 ^ 25 % 2 ^ 6 * 2 ^ 5
            + w / 2 ^ 7 % 2 * 2 ^ 11 + w / 2 ^ 31 % 2 * 2 ^ 12) 13 = imm_spec w InstType.B
      unfold imm_spec
      have harg : bitField w 31 31 * 2 ^ 12 + bitField w 7 7 * 2 ^ 11
            + bitField w 25 30 * 2 ^ 5 + bitField w 8 11 * 2 ^ 1
          = w / 2 ^ 8 % 2 ^ 4 * 2 + w / 2 ^ 25 % 2 ^ 6 * 2 ^ 5
            + w / 2 ^ 7 % 2 * 2 ^ 11 + w / 2 ^ 31 % 2 * 2 ^ 12 := by
        unfold bitField
        omega
      rw [harg]
      exact sign_extend_eq _ 13 (by norm_num) (by norm_num) (by omega)
    · -- U-type
      show w / 2 ^ 12 % 2 ^ 20 * 2 ^ 12 = imm_spec w InstType.U
      unfold imm_spec bitField
      rfl
    · -- J-type
      show sign_extend (w / 2 ^ 21 % 2 ^ 10 * 2 + w / 2 ^ 20 % 2 * 2 ^ 11
            + w / 2 ^ 12 % 2 ^ 8 * 2 ^ 12 + w / 2 ^ 31 % 2 * 2 ^ 20) 21 = imm_spec w InstType.J
      unfold imm_spec
      have harg : bitField w 31 31 * 2 ^ 20 + bitField w 12 19 * 2 ^ 12
            + bitField w 20 20 * 2 ^ 11 + bitField w 21 30 * 2 ^ 1
          = w / 2 ^ 21 % 2 ^ 10 * 2 + w / 2 ^ 20 % 2 * 2 ^ 11
            + w / 2 ^ 12 % 2 ^ 8 * 2 ^ 12 + w / 2 ^ 31 % 2 * 2 ^ 20 := by
        unfold bitField
        omega
      rw [harg]
      exact sign_extend_eq _ 21 (by norm_num) (by norm_num) (by omega)

/-- C3 witness: the decoding theorem applied to the concrete word 0xFFF00093
    (`addi x1, x0, -1`), and the sign-extension clause applied to the 12-bit
    field value 0xFFF. -/
theorem c3_immediate_decoding_witness :
    c3Example.imm = imm_spec 0xFFF00093 c3Example.inst_type
    ∧ sign_extend 0xFFF 12 = sign_extend_spec 0xFFF 12 :=
  ⟨(c3_immediate_decoding 0xFFF00093 (by norm_num) c3Example rfl).1,
   (c3_immediate_decoding 0xFFF00093 (by norm_num) c3Example rfl).2 0xFFF 12 (by norm_num)
     (by norm_num) (by norm_num)⟩

/-- C6: a CDB entry posted by `send` (tag `(1 << 7) | num` with a register
    number below 64) is invisible to `get_station` in the cycle it is posted,
    is returned by `get_station` for its station id after exactly one aging
    tick, and after the second aging tick is deleted (empty, answering no
    station query at all); `Cdb::exec`, the per-cycle aging, applies exactly
    one `clock` tick to every buffer entry. -/
theorem c6_cdb_two_phase_visibility (station_id num data : Nat) (hnum : num < 64)
    (cdb : OoO.Cdb) :
    ((OoO.CdbData.new station_id num data).get_station station_id = none)
    ∧ (((OoO.CdbData.new station_id num data).clock).get_station station_id = some data)
    ∧ (∀ sid2, (((OoO.CdbData.new station_id num data).clock).clock).get_station sid2 = none)
    ∧ ((((OoO.CdbData.new station_id num data).clock).clock).is_empty = true)
    ∧ ((cdb.exec).buffer = cdb.buffer.map OoO.CdbData.clock) := by
  have f1 : ∀ n, n < 64 → ¬(128 ||| n) &&& 192 = 192 := by decide
  have f2 : ∀ n, n < 64 → ¬(128 ||| n) &&& 128 = 0 := by decide
  have f3 : ∀ n, n < 64 → (128 ||| n) &&& 64 = 0 := by decide
  have f4 : ∀ n, n < 64 → (128 ||| n ||| 64) &&& 192 = 192 := by decide
  have f5 : ∀ n, n < 64 → ¬(128 ||| n ||| 64) &&& 128 = 0 := by decide
  have f6 : ∀ n, n < 64 → ¬(128 ||| n ||| 64) &&& 64 = 0 := by decide
  refine ⟨?_, ?_, ?_, ?_, rfl⟩
  · simp [OoO.CdbData.new, OoO.CdbData.get_station, f1 num hnum]
  · simp [OoO.CdbData.new, OoO.CdbData.clock, OoO.CdbData.is_empty, OoO.CdbData.get_station,
      f2 num hnum, f3 num hnum, f4 num hnum]
  · intro sid2
    simp [OoO.CdbData.new, OoO.CdbData.clock, OoO.CdbData.is_empty, OoO.CdbData.get_station,
      f2 num hnum, f3 num hnum, f5 num hnum, f6 num hnum]
  · simp [OoO.CdbData.new, OoO.CdbData.clock, OoO.CdbData.is_empty,
      f2 num hnum, f3 num hnum, f5 num hnum, f6 num hnum]

/-- C6 witness: the two-phase-visibility theorem applied to the concrete entry
    (station 3, register 5, value 9) over the empty CDB. -/
theorem c6_cdb_two_phase_visibility_witness :
    (5 : Nat) < 64 ∧ ((OoO.CdbData.new 3 5 9).clock).get_station 3 = some 9 :=
  ⟨by decide, (c6_cdb_two_phase_visibility 3 5 9 (by decide) OoO.Cdb.init).2.1⟩

/-- C7: in the in-order core's WB stage, the step outcome is `Break` exactly
    when the instruction committing in MEM/WB is ebreak; when it is ecall the
    outcome is `Exit(reg[11])` if reg[10] = 17 and the error "unknown ecall"
    otherwise; when it is neither, the terminal check yields `Running`.  The
    committing instruction is assumed to be a decoder output (its fields agree
    with `from_binary` of its word), which rules out ill-formed records whose
    rd would let the preceding register write touch reg[10]. -/
theorem c7_wb_termination (s : InOrder.CpuState)
    (hwf : Instruction.from_binary s.mem_wb.ir.binary = some s.mem_wb.ir) :
    ((InOrder.wb_cycle s).2 = .ok .Break ↔ s.mem_wb.ir.is_ebreak = true)
    ∧ (s.mem_wb.ir.is_ecall = true → s.regs.regs 10 = 17 →
        (InOrder.wb_cycle s).2 = .ok (.Exit (s.regs.regs 11)))
    ∧ (s.mem_wb.ir.is_ecall = true → ¬s.regs.regs 10 = 17 →
        (InOrder.wb_cycle s).2 = .error "unknown ecall")
    ∧ (s.mem_wb.ir.is_ebreak = false → s.mem_wb.ir.is_ecall = false →
        (InOrder.wb_cycle s).2 = .ok .Running) := by
  have hecall : s.mem_wb.ir.is_ecall = true → s.mem_wb.ir = ⟨0x73, .I, 0, 0, 0, 0⟩ := by
    intro he
    have hbin : s.mem_wb.ir.binary = 0x73 := by
      simpa [Instruction.is_ecall] using he
    have hdec : Instruction.from_binary 0x73 = some ⟨0x73, .I, 0, 0, 0, 0⟩ := by decide
    rw [hbin, hdec] at hwf
    exact (Option.some_inj.mp hwf).symm
  refine ⟨?_, ?_, ?_, ?_⟩
  · constructor
    · intro h
      by_contra hb
      rw [Bool.not_eq_true] at hb
      cases he : s.mem_wb.ir.is_ecall with
      | true =>
        have hir := hecall he
        by_cases h10 : s.regs.regs 10 = 17 <;>
          simp [InOrder.wb_cycle, hir, h10, Instruction.is_ebreak, Instruction.is_ecall,
            Instruction.reg_write, Instruction.is_nop] at h
      | false =>
        simp only [Instruction.is_ebreak, beq_eq_false_iff_ne, ne_eq] at hb
        simp only [Instruction.is_ecall, beq_eq_false_iff_ne, ne_eq] at he
        simp [InOrder.wb_cycle, Instruction.is_ebreak, Instruction.is_ecall, hb, he] at h
    · intro h
      simp only [Instruction.is_ebreak, beq_iff_eq] at h
      simp [InOrder.wb_cycle, Instruction.is_ebreak, h]
  · intro he h10
    have hir := hecall he
    simp [InOrder.wb_cycle, hir, h10, Instruction.is_ebreak, Instruction.is_ecall,
      Instruction.reg_write, Instruction.is_nop]
  · intro he h10
    have hir := hecall he
    simp [InOrder.wb_cycle, hir, h10, Instruction.is_ebreak, Instruction.is_ecall,
      Instruction.reg_write, Instruction.is_nop]
  · intro hb he
    simp only [Instruction.is_ebreak, beq_eq_false_iff_ne, ne_eq] at hb
    simp only [Instruction.is_ecall, beq_eq_false_iff_ne, ne_eq] at he
    simp [InOrder.wb_cycle, Instruction.is_ebreak, Instruction.is_ecall, hb, he]

/-- C7 witness: the WB termination theorem applied to the concrete state
    committing ecall with reg[10] = 17 and reg[11] = 42. -/
theorem c7_wb_termination_witness :
    (InOrder.wb_cycle c7Example).2 = .ok (.Exit 42) :=
  (c7_wb_termination c7Example rfl).2.1 (by decide) rfl

namespace InOrder

/-- Helper: the WB stage leaves IF/ID, the ID/EX instruction, the stall flag,
    the hazard counter, the exit flag and the cycle counter unchanged. -/
theorem wb_cycle_pres (s : CpuState) :
    ((wb_cycle s).1).if_id = s.if_id ∧ ((wb_cycle s).1).id_ex.ir = s.id_ex.ir
    ∧ ((wb_cycle s).1).stall = s.stall ∧ ((wb_cycle s).1).data_hazard = s.data_hazard
    ∧ ((wb_cycle s).1).exit = s.exit ∧ ((wb_cycle s).1).cycle = s.cycle := by
  simp only [wb_cycle]
  split_ifs <;> exact ⟨rfl, rfl, rfl, rfl, rfl, rfl⟩

/-- Helper: the MEM stage leaves the same fields unchanged. -/
theorem mem_cycle_pres (s : CpuState) :
    (mem_cycle s).if_id = s.if_id ∧ (mem_cycle s).id_ex.ir = s.id_ex.ir
    ∧ (mem_cycle s).stall = s.stall ∧ (mem_cycle s).data_hazard = s.data_hazard
    ∧ (mem_cycle s).exit = s.exit ∧ (mem_cycle s).cycle = s.cycle := by
  exact ⟨rfl, rfl, rfl, rfl, rfl, rfl⟩

/-- Helper: a successful EX stage leaves IF/ID, ID/EX, the stall flag, the
    hazard counter, the exit flag and the cycle counter unchanged. -/
theorem ex_cycle_pres (s s2 : CpuState) (h : ex_cycle s = some s2) :
    s2.if_id = s.if_id ∧ s2.id_ex = s.id_ex
    ∧ s2.stall = s.stall ∧ s2.data_hazard = s.data_hazard
    ∧ s2.exit = s.exit ∧ s2.cycle = s.cycle := by
  simp only [ex_cycle] at h
  split at h
  · exact absurd h (by simp)
  · split at h
    · exact absurd h (by simp)
    · rw [Option.some_inj] at h
      subst h
      exact ⟨rfl, rfl, rfl, rfl, rfl, rfl⟩

/-- Helper: when ID/EX holds a load whose rd matches a source register of
    IF/ID, the ID stage stalls, counts one data hazard, replaces ID/EX with a
    nop and leaves IF/ID untouched. -/
theorem id_cycle_stall (s : CpuState)
    (hload : s.id_ex.ir.is_load = true)
    (hdep : s.id_ex.ir.rd = s.if_id.ir.rs1 ∨ s.id_ex.ir.rd = s.if_id.ir.rs2) :
    (id_cycle s).stall = true ∧ (id_cycle s).data_hazard = s.data_hazard + 1
    ∧ (id_cycle s).id_ex.ir = Instruction.nop ∧ (id_cycle s).if_id = s.if_id
    ∧ (id_cycle s).exit = s.exit ∧ (id_cycle s).cycle = s.cycle := by
  have hc : (s.id_ex.ir.is_load
      && (s.id_ex.ir.rd == s.if_id.ir.rs1 || s.id_ex.ir.rd == s.if_id.ir.rs2)) = true := by
    rcases hdep with h | h <;> simp [hload, h]
  simp [id_cycle, hc]

/-- Helper: when ID/EX does not hold a load, the ID stage latches IF/ID into
    ID/EX without touching the data-hazard counter. -/
theorem id_cycle_noload (s : CpuState) (hload : s.id_ex.ir.is_load = false) :
    (id_cycle s).id_ex.ir = s.if_id.ir ∧ (id_cycle s).data_hazard = s.data_hazard := by
  have hc : (s.id_ex.ir.is_load
      && (s.id_ex.ir.rd == s.if_id.ir.rs1 || s.id_ex.ir.rd == s.if_id.ir.rs2)) = false := by
    simp [hload]
  simp [id_cycle, hc]

/-- Helper: during a stall (with no jump in ID/EX and the exit flag clear)
    the IF stage performs no fetch: IF/ID and ID/EX are held. -/
theorem if_cycle_stall (s s2 : CpuState) (hst : s.stall = true)
    (hjmp : s.id_ex.ir.is_jump = false) (hex : s.exit = false)
    (h : if_cycle s = some s2) :
    s2.if_id = s.if_id ∧ s2.id_ex = s.id_ex ∧ s2.stall = true
    ∧ s2.data_hazard = s.data_hazard ∧ s2.cycle = s.cycle := by
  cases hcond : s.ex_mem.cond <;>
    cases hec : s.if_id.ir.is_ecall <;>
      simp only [if_cycle, hcond, hst, hjmp, hex, hec, Bool.false_eq_true, Bool.or_self,
        Bool.not_true, if_false, if_true] at h <;>
      (rw [Option.some_inj] at h; subst h; exact ⟨rfl, rfl, by simp [hst], rfl, rfl⟩)

/-- Helper: a successful IF stage never touches ID/EX, the data-hazard
    counter or the cycle counter. -/
theorem if_cycle_pres (s s2 : CpuState) (h : if_cycle s = some s2) :
    s2.id_ex = s.id_ex ∧ s2.data_hazard = s.data_hazard ∧ s2.cycle = s.cycle := by
  simp only [if_cycle] at h
  repeat' split at h
  all_goals first
    | exact Option.noConfusion h
    | (injection h with h; subst h; exact ⟨rfl, rfl, rfl⟩)

/-- Helper: a successful `step()` decomposes into the WB, MEM, EX, ID and IF
    stages applied in order, each gated by the cycle counter, with the cycle
    counter bumped at the end. -/
theorem step_ok_chain (s s' : CpuState) (r : RunState) (h : step s = .ok s' r) :
    ∃ sa sb sc se,
      sa = (if 3 < s.cycle then wb_cycle s else (s, Except.ok RunState.Running)).1
      ∧ sb = (if 2 < s.cycle then mem_cycle sa else sa)
      ∧ (if 1 < s.cycle then ex_cycle sb else some sb) = some sc
      ∧ if_cycle (if 0 < s.cycle then id_cycle sc else sc) = some se
      ∧ s' = { se with cycle := se.cycle + 1 } := by
  simp only [step] at h
  split at h
  · exact absurd h (by simp)
  · split at h
    · exact absurd h (by simp)
    · rename_i st hst sc heqx
      split at h
      · exact absurd h (by simp)
      · rename_i se heqif
        split at h
        · exact absurd h (by simp)
        · rw [StepRes.ok.injEq] at h
          exact ⟨_, _, sc, se, rfl, rfl, heqx, heqif, h.1.symm⟩

/-- C4: in the in-order core, when ID/EX holds a load whose destination
    register matches a source register of the instruction in IF/ID (with the
    exit flag clear), the next step stalls: the data-hazard counter increases
    by exactly 1, a nop replaces the dependent instruction in ID/EX, and IF/ID
    is held; the step after that re-reads the held IF/ID into ID/EX without a
    further data-hazard increment, so the dependent instruction stalls exactly
    one cycle. -/
theorem c4_load_use_stall (s s1 s2 : CpuState) (r1 r2 : RunState)
    (hc : 0 < s.cycle) (hex : s.exit = false)
    (hload : s.id_ex.ir.is_load = true)
    (hdep : s.id_ex.ir.rd = s.if_id.ir.rs1 ∨ s.id_ex.ir.rd = s.if_id.ir.rs2)
    (h1 : step s = .ok s1 r1) (h2 : step s1 = .ok s2 r2) :
    s1.data_hazard = s.data_hazard + 1 ∧ s1.stall = true
    ∧ s1.id_ex.ir = Instruction.nop ∧ s1.if_id.ir = s.if_id.ir
    ∧ s2.id_ex.ir = s.if_id.ir ∧ s2.data_hazard = s1.data_hazard := by
  obtain ⟨sa, sb, sc, se, hsa, hsb, heqx, heqif, hres⟩ := step_ok_chain s s1 r1 h1
  -- the WB and MEM stages preserve the fields the hazard logic reads
  have ha : sa.if_id = s.if_id ∧ sa.id_ex.ir = s.id_ex.ir ∧ sa.stall = s.stall
      ∧ sa.data_hazard = s.data_hazard ∧ sa.exit = s.exit ∧ sa.cycle = s.cycle := by
    rw [hsa]
    split
    · exact wb_cycle_pres s
    · exact ⟨rfl, rfl, rfl, rfl, rfl, rfl⟩
  have hb : sb.if_id = s.if_id ∧ sb.id_ex.ir = s.id_ex.ir ∧ sb.stall = s.stall
      ∧ sb.data_hazard = s.data_hazard ∧ sb.exit = s.exit ∧ sb.cycle = s.cycle := by
    rw [hsb]
    split
    · obtain ⟨m1, m2, m3, m4, m5, m6⟩ := mem_cycle_pres sa
      rw [m1, m2, m3, m4, m5, m6]
      exact ha
    · exact ha
  have hcfacts : sc.if_id = s.if_id ∧ sc.id_ex.ir = s.id_ex.ir ∧ sc.stall = s.stall
      ∧ sc.data_hazard = s.data_hazard ∧ sc.exit = s.exit ∧ sc.cycle = s.cycle := by
    split at heqx
    · obtain ⟨e1, e2, e3, e4, e5, e6⟩ := ex_cycle_pres sb sc heqx
      rw [e1, e2, e3, e4, e5, e6]
      exact hb
    · rw [Option.some_inj] at heqx
      rw [← heqx]
      exact hb
  obtain ⟨c1, c2, c3, c4, c5, c6⟩ := hcfacts
  -- the ID stage raises the stall
  rw [if_pos hc] at heqif
  have hstall := id_cycle_stall sc (by rw [c2]; exact hload)
    (by rw [c2, c1]; exact hdep)
  obtain ⟨d1, d2, d3, d4, d5, d6⟩ := hstall
  -- the IF stage holds IF/ID
  have hif := if_cycle_stall (id_cycle sc) se d1 (by rw [d3]; decide)
    (by rw [d5, c5]; exact hex) heqif
  obtain ⟨f1, f2, f3, f4, f5⟩ := hif
  have g1 : s1.data_hazard = s.data_hazard + 1 := by
    rw [hres]
    show se.data_hazard = s.data_hazard + 1
    rw [f4, d2, c4]
  have g2 : s1.stall = true := by
    rw [hres]
    show se.stall = true
    exact f3
  have g3 : s1.id_ex.ir = Instruction.nop := by
    rw [hres]
    show se.id_ex.ir = Instruction.nop
    rw [f2]
    exact d3
  have g4 : s1.if_id.ir = s.if_id.ir := by
    rw [hres]
    show se.if_id.ir = s.if_id.ir
    rw [f1, d4, c1]
  -- second step: the held instruction enters ID/EX, no further hazard
  obtain ⟨ta, tb, tc, te, hta, htb, hteqx, hteqif, htres⟩ := step_ok_chain s1 s2 r2 h2
  have hta2 : ta.if_id = s1.if_id ∧ ta.id_ex.ir = s1.id_ex.ir ∧ ta.stall = s1.stall
      ∧ ta.data_hazard = s1.data_hazard ∧ ta.exit = s1.exit ∧ ta.cycle = s1.cycle := by
    rw [hta]
    split
    · exact wb_cycle_pres s1
    · exact ⟨rfl, rfl, rfl, rfl, rfl, rfl⟩
  have htb2 : tb.if_id = s1.if_id ∧ tb.id_ex.ir = s1.id_ex.ir ∧ tb.stall = s1.stall
      ∧ tb.data_hazard = s1.data_hazard ∧ tb.exit = s1.exit ∧ tb.cycle = s1.cycle := by
    rw [htb]
    split
    · obtain ⟨m1, m2, m3, m4, m5, m6⟩ := mem_cycle_pres ta
      rw [m1, m2, m3, m4, m5, m6]
      exact hta2
    · exact hta2
  have htc2 : tc.if_id = s1.if_id ∧ tc.id_ex.ir = s1.id_ex.ir ∧ tc.stall = s1.stall
      ∧ tc.data_hazard = s1.data_hazard ∧ tc.exit = s1.exit ∧ tc.cycle = s1.cycle := by
    split at hteqx
    · obtain ⟨e1, e2, e3, e4, e5, e6⟩ := ex_cycle_pres tb tc hteqx
      rw [e1, e2, e3, e4, e5, e6]
      exact htb2
    · rw [Option.some_inj] at hteqx
      rw [← hteqx]
      exact htb2
  obtain ⟨u1, u2, u3, u4, u5, u6⟩ := htc2
  have hc1 : 0 < s1.cycle := by
    rw [hres]
    show se.cycle + 1 > 0
    omega
  rw [if_pos hc1] at hteqif
  have hnoload := id_cycle_noload tc (by rw [u2, g3]; decide)
  obtain ⟨n1, n2⟩ := hnoload
  obtain ⟨p1, p2, p3⟩ := if_cycle_pres (id_cycle tc) te hteqif
  have g5 : s2.id_ex.ir = s.if_id.ir := by
    rw [htres]
    show te.id_ex.ir = s.if_id.ir
    rw [p1, n1, u1, g4]
  have g6 : s2.data_hazard = s1.data_hazard := by
    rw [htres]
    show te.data_hazard = s1.data_hazard
    rw [p2, n2, u4]
  exact ⟨g1, g2, g3, g4, g5, g6⟩

end InOrder

/-- C4 witness: the load-use theorem applied to the concrete state reached two
    cycles into `lw x1, 0(x0); add x2, x1, x1; nop; nop; nop`, where the load
    sits in ID/EX and the dependent add in IF/ID. -/
theorem c4_load_use_stall_witness :
    c4After1.data_hazard = c4Hazard.data_hazard + 1
    ∧ c4After1.id_ex.ir = Instruction.nop
    ∧ c4After2.id_ex.ir = c4Hazard.if_id.ir
    ∧ c4After2.data_hazard = c4After1.data_hazard :=
  have h := InOrder.c4_load_use_stall c4Hazard c4After1 c4After2 .Running .Running
    (by decide) (by decide) (by decide) (by decide) rfl rfl
  ⟨h.1, h.2.2.1, h.2.2.2.2.1, h.2.2.2.2.2⟩
